import Mathlib

/-!
  # MovieHub backend — verification of the authorization / ownership core

  A shallow embedding of the MovieHub REST backend (`app/main.py`,
  `app/auth.py`, `app/models.py`) and proofs about its authorization and
  ownership-enforcement layer.

  Modelling conventions:

  * The relational store is a `State` of four in-memory tables (lists of
    records).  Server-assigned timestamp columns (`created_at`) appear in no
    checked property and are omitted from the record types.
  * SQLAlchemy `update(...).where(p)` / `delete(...).where(p)` are embedded
    literally as `List.map` over the rows matching `p` / `List.filter` keeping
    the rows not matching `p`.  ORM load-then-mutate endpoints
    (`update_review`, `add_to_list`, `remove_from_list`) load the single row
    matching their predicate (`scalar_one_or_none` / `scalar_one`; primary
    keys are unique), so mutating the loaded row is embedded as the same
    predicate-scoped map.
  * Endpoint handlers return `Except Err (State × ...)`: `.ok` is a committed
    transaction plus the response payload, `.error` is a raised
    `HTTPException` (no commit, state unchanged).
  * `Float` columns (`Movie.rating`) carry no arithmetic in any checked
    property; they are embedded as `Rat`, an exact stand-in for the stored
    value.
-/

namespace MovieHub

/-- An `HTTPException`: status code and detail message (`app/main.py`
raises these; the uniform error envelope copies both through). -/
structure Err where
  status : Nat
  detail : String
deriving DecidableEq, Repr

/-- Row of the `users` table (`app/models.py`, class `User`). -/
structure User where
  id : Nat
  email : String
  hashed_password : String
  role : String
deriving DecidableEq, Repr

/-- Row of the `movies` table (`app/models.py`, class `Movie`).  `overview`
is nullable; `rating` defaults to `0.0` at the column level. -/
structure Movie where
  id : Nat
  title : String
  overview : Option String
  rating : Rat
deriving DecidableEq, Repr

/-- Row of the `reviews` table (`app/models.py`, class `Review`). -/
structure Review where
  id : Nat
  content : String
  score : Int
  user_id : Nat
  movie_id : Nat
deriving DecidableEq, Repr

/-- Row of the `personal_lists` table together with its side of the
`movie_list_association` table: `movies` is the association rows for this
list, as the referenced movie ids in insertion order (duplicates are not
prevented, matching the schema). -/
structure PersonalList where
  id : Nat
  title : String
  description : Option String
  user_id : Nat
  movies : List Nat
deriving DecidableEq, Repr

/-- The persistent store: the four tables. -/
structure State where
  users : List User
  movies : List Movie
  reviews : List Review
  lists : List PersonalList
deriving DecidableEq, Repr

/-- The committed state of a handler result: `.ok` committed the new state,
`.error` raised before commit and left the store as it was. -/
def resultState {ρ : Type} (r : Except Err (State × ρ)) (s : State) : State :=
  match r with
  | .ok (s', _) => s'
  | .error _ => s

-- ---------------------------------------------------------------------------
-- Review endpoints (`app/main.py`, section 4)
-- ---------------------------------------------------------------------------

/-- Handler `PUT /reviews/{review_id}` (`update_review`): select the review
with `id = review_id AND user_id = u.id`; if none, raise 403 "Not your
review"; otherwise set its `content` and commit. -/
def update_review (u : User) (review_id : Nat) (content : String) (s : State) :
    Except Err (State × Review) :=
  match s.reviews.find? (fun r => r.id == review_id && r.user_id == u.id) with
  | none => .error ⟨403, ("Not your review")⟩
  | some r0 =>
      .ok ({s with reviews := s.reviews.map (fun r =>
              if r.id == review_id && r.user_id == u.id then
                {r with content := content} else r)},
           {r0 with content := content})

/-- Row effect of `DELETE /reviews/{review_id}`: `delete(Review).where(id =
review_id, user_id = u.id)` — keep every row not matching the predicate. -/
def eraseReview (u : User) (review_id : Nat) (s : State) : State :=
  {s with reviews := s.reviews.filter (fun r =>
      !(r.id == review_id && r.user_id == u.id))}

/-- Handler `DELETE /reviews/{review_id}` (`delete_review`): issue the
ownership-scoped delete and unconditionally answer `{"msg": "deleted"}`. -/
def delete_review (u : User) (review_id : Nat) (s : State) :
    Except Err (State × String) :=
  .ok (eraseReview u review_id s, ("deleted"))

-- ---------------------------------------------------------------------------
-- Personal list endpoints (`app/main.py`, section 5)
-- ---------------------------------------------------------------------------

/-- Handler `PUT /lists/{list_id}` (`update_list`):
`update(PersonalList).where(id = list_id, user_id = u.id).values(title)`,
then commit and answer `{"msg": "updated"}`. -/
def update_list (u : User) (list_id : Nat) (title : String) (s : State) :
    Except Err (State × String) :=
  .ok ({s with lists := s.lists.map (fun l =>
          if l.id == list_id && l.user_id == u.id then
            {l with title := title} else l)},
       ("updated"))

/-- Row effect of `DELETE /lists/{list_id}`: `delete(PersonalList).where(id =
list_id, user_id = u.id)`. -/
def eraseList (u : User) (list_id : Nat) (s : State) : State :=
  {s with lists := s.lists.filter (fun l =>
      !(l.id == list_id && l.user_id == u.id))}

/-- Handler `DELETE /lists/{list_id}` (`delete_list`): ownership-scoped
delete, then `{"msg": "deleted"}`. -/
def delete_list (u : User) (list_id : Nat) (s : State) :
    Except Err (State × String) :=
  .ok (eraseList u list_id s, ("deleted"))

/-- Handler `POST /lists/{list_id}/movies/{movie_id}` (`add_to_list`): select
the list by id alone (`scalar_one`, raising when no row exists — surfaced as
a 500), fetch the movie by primary key, append it to the list's movies and
commit.  The acting user `u` is resolved but never compared against the
list's owner.  Appending a missing movie (`db.get` returned `None`) fails at
commit time in the source; it is embedded as an internal error. -/
def add_to_list (u : User) (list_id movie_id : Nat) (s : State) :
    Except Err (State × String) :=
  match s.lists.find? (fun l => l.id == list_id) with
  | none => .error ⟨500, ("Internal server error")⟩
  | some _ =>
      match s.movies.find? (fun m => m.id == movie_id) with
      | none => .error ⟨500, ("Internal server error")⟩
      | some m =>
          .ok ({s with lists := s.lists.map (fun l =>
                  if l.id == list_id then
                    {l with movies := l.movies ++ [m.id]} else l)},
               ("added"))

/-- Handler `DELETE /lists/{list_id}/movies/{movie_id}` (`remove_from_list`):
select the list by id alone (`scalar_one`), rebuild its movies without the
given movie id, commit.  Again no comparison against the list's owner. -/
def remove_from_list (u : User) (list_id movie_id : Nat) (s : State) :
    Except Err (State × String) :=
  match s.lists.find? (fun l => l.id == list_id) with
  | none => .error ⟨500, ("Internal server error")⟩
  | some _ =>
      .ok ({s with lists := s.lists.map (fun l =>
              if l.id == list_id then
                {l with movies := l.movies.filter (fun x => !(x == movie_id))}
              else l)},
           ("removed"))

-- ---------------------------------------------------------------------------
-- Credential store (`app/auth.py`): SHA-256 password hashing
-- ---------------------------------------------------------------------------

/-- A 32-bit word reduced modulo `2 ^ 32`. -/
def w32 (x : Nat) : Nat := x % 2 ^ 32

/-- Right rotation of a 32-bit word by `n` places. -/
def rotr (n x : Nat) : Nat := x / 2 ^ n + x % 2 ^ n * 2 ^ (32 - n)

/-- Bitwise complement of a 32-bit word. -/
def bnot32 (x : Nat) : Nat := x ^^^ 0xffffffff

/-- The SHA-256 choose function. -/
def sha2Ch (x y z : Nat) : Nat := (x &&& y) ^^^ (bnot32 x &&& z)

/-- The SHA-256 majority function. -/
def sha2Maj (x y z : Nat) : Nat := (x &&& y) ^^^ (x &&& z) ^^^ (y &&& z)

/-- The SHA-256 big Σ0 function. -/
def bigSigma0 (x : Nat) : Nat := rotr 2 x ^^^ rotr 13 x ^^^ rotr 22 x

/-- The SHA-256 big Σ1 function. -/
def bigSigma1 (x : Nat) : Nat := rotr 6 x ^^^ rotr 11 x ^^^ rotr 25 x

/-- The SHA-256 small σ0 function. -/
def smallSigma0 (x : Nat) : Nat := rotr 7 x ^^^ rotr 18 x ^^^ x / 2 ^ 3

/-- The SHA-256 small σ1 function. -/
def smallSigma1 (x : Nat) : Nat := rotr 17 x ^^^ rotr 19 x ^^^ x / 2 ^ 10

/-- The 64 SHA-256 round constants (FIPS 180-4, §4.2.2), written in
decimal. -/
def sha2K : List Nat :=
  [1116352408, 1899447441, 3049323471, 3921009573, 961987163,
   1508970993, 2453635748, 2870763221, 3624381080, 310598401,
   607225278, 1426881987, 1925078388, 2162078206, 2614888103,
   3248222580, 3835390401, 4022224774, 264347078, 604807628,
   770255983, 1249150122, 1555081692, 1996064986, 2554220882,
   2821834349, 2952996808, 3210313671, 3336571891, 3584528711,
   113926993, 338241895, 666307205, 773529912, 1294757372,
   1396182291, 1695183700, 1986661051, 2177026350, 2456956037,
   2730485921, 2820302411, 3259730800, 3345764771, 3516065817,
   3600352804, 4094571909, 275423344, 430227734, 506948616,
   659060556, 883997877, 958139571, 1322822218, 1537002063,
   1747873779, 1955562222, 2024104815, 2227730452, 2361852424,
   2428436474, 2756734187, 3204031479, 3329325298]

/-- Working state of the SHA-256 compression loop: eight 32-bit words. -/
structure Hash8 where
  a : Nat
  b : Nat
  c : Nat
  d : Nat
  e : Nat
  f : Nat
  g : Nat
  h : Nat
deriving DecidableEq, Repr

/-- The SHA-256 initial hash value (FIPS 180-4, §5.3.3), in decimal. -/
def sha2H0 : Hash8 :=
  ⟨1779033703, 3144134277, 1013904242, 2773480762,
   1359893119, 2600822924, 528734635, 1541459225⟩

/-- Big-endian bytes of the 64-bit message bit length. -/
def lengthBytes (bitLen : Nat) : List Nat :=
  [bitLen / 2 ^ 56 % 256, bitLen / 2 ^ 48 % 256, bitLen / 2 ^ 40 % 256,
   bitLen / 2 ^ 32 % 256, bitLen / 2 ^ 24 % 256, bitLen / 2 ^ 16 % 256,
   bitLen / 2 ^ 8 % 256, bitLen % 256]

/-- SHA-256 padding: append `0x80`, then zeros up to 56 mod 64 bytes, then
the 8-byte big-endian bit length. -/
def padMessage (msg : List Nat) : List Nat :=
  msg ++ [0x80] ++
    List.replicate ((56 + 64 - (msg.length + 1) % 64) % 64) 0 ++
    lengthBytes (msg.length * 8)

/-- Split a byte string into 64-byte blocks, with a structural fuel so that
the kernel can evaluate it; one unit of fuel per byte is more than the one
unit per block consumed. -/
def toBlocksAux : Nat → List Nat → List (List Nat)
  | 0, _ => []
  | _, [] => []
  | fuel + 1, b :: bs =>
      (b :: bs).take 64 :: toBlocksAux fuel ((b :: bs).drop 64)

/-- Split a byte string into 64-byte blocks. -/
def toBlocks (bs : List Nat) : List (List Nat) := toBlocksAux bs.length bs

/-- Assemble big-endian 32-bit words from bytes. -/
def bytesToWords : List Nat → List Nat
  | a :: b :: c :: d :: rest =>
      (a * 2 ^ 24 + b * 2 ^ 16 + c * 2 ^ 8 + d) :: bytesToWords rest
  | _ => []

/-- Extend a 16-word block by `n` schedule words (FIPS 180-4, §6.2.2 step 1):
each new word is `σ1(w[t-2]) + w[t-7] + σ0(w[t-15]) + w[t-16]` mod `2^32`. -/
def buildSchedule (ws : List Nat) : Nat → List Nat
  | 0 => ws
  | n + 1 =>
      let prev := buildSchedule ws n
      prev ++ [w32 (smallSigma1 (prev.getD (prev.length - 2) 0) +
                    prev.getD (prev.length - 7) 0 +
                    smallSigma0 (prev.getD (prev.length - 15) 0) +
                    prev.getD (prev.length - 16) 0)]

/-- One SHA-256 round, consuming a `(K, W)` pair. -/
def compressStep (st : Hash8) (kw : Nat × Nat) : Hash8 :=
  let t1 := w32 (st.h + bigSigma1 st.e + sha2Ch st.e st.f st.g + kw.1 + kw.2)
  let t2 := w32 (bigSigma0 st.a + sha2Maj st.a st.b st.c)
  ⟨w32 (t1 + t2), st.a, st.b, st.c, w32 (st.d + t1), st.e, st.f, st.g⟩

/-- Process one padded 64-byte block: run the 64 rounds over the extended
schedule and add the result into the chaining value. -/
def compressBlock (hs : Hash8) (block : List Nat) : Hash8 :=
  let ws := buildSchedule (bytesToWords block) 48
  let st := (sha2K.zip ws).foldl compressStep hs
  ⟨w32 (hs.a + st.a), w32 (hs.b + st.b), w32 (hs.c + st.c), w32 (hs.d + st.d),
   w32 (hs.e + st.e), w32 (hs.f + st.f), w32 (hs.g + st.g), w32 (hs.h + st.h)⟩

/-- The SHA-256 chaining state of a byte message: pad, split into blocks,
fold the compression function from the initial hash value. -/
def sha256Hash (msg : List Nat) : Hash8 :=
  (toBlocks (padMessage msg)).foldl compressBlock sha2H0

/-- A digest value: eight 32-bit words as elements of the finite type
`Fin (2 ^ 32)` — the codomain SHA-256 actually has, and the finiteness the
collision argument rests on. -/
abbrev Digest256 :=
  Fin (2 ^ 32) × Fin (2 ^ 32) × Fin (2 ^ 32) × Fin (2 ^ 32) ×
  Fin (2 ^ 32) × Fin (2 ^ 32) × Fin (2 ^ 32) × Fin (2 ^ 32)

/-- Reduce a word into `Fin (2 ^ 32)` (the chaining words already are below
`2 ^ 32`; the reduction only carries the bound). -/
def fin32 (x : Nat) : Fin (2 ^ 32) := ⟨x % 2 ^ 32, Nat.mod_lt _ (by norm_num)⟩

/-- The SHA-256 digest of a byte message, as its eight words. -/
def sha256Digest (msg : List Nat) : Digest256 :=
  let hs := sha256Hash msg
  (fin32 hs.a, fin32 hs.b, fin32 hs.c, fin32 hs.d,
   fin32 hs.e, fin32 hs.f, fin32 hs.g, fin32 hs.h)

/-- The lowercase hexadecimal digit character of a nibble: `0`-`9` are code
points 48-57, `a`-`f` are 97-102. -/
def hexChar (n : Nat) : Char :=
  if n < 10 then Char.ofNat (48 + n) else Char.ofNat (87 + n)

/-- The eight lowercase hex characters of a 32-bit word, most significant
nibble first. -/
def wordHex (w : Fin (2 ^ 32)) : List Char :=
  [hexChar (w.val / 16 ^ 7 % 16), hexChar (w.val / 16 ^ 6 % 16),
   hexChar (w.val / 16 ^ 5 % 16), hexChar (w.val / 16 ^ 4 % 16),
   hexChar (w.val / 16 ^ 3 % 16), hexChar (w.val / 16 ^ 2 % 16),
   hexChar (w.val / 16 % 16), hexChar (w.val % 16)]

/-- The 64-character lowercase hex rendering of a digest — Python's
`hexdigest()`. -/
def digestHex (d : Digest256) : String :=
  String.mk (wordHex d.1 ++ wordHex d.2.1 ++ wordHex d.2.2.1 ++
             wordHex d.2.2.2.1 ++ wordHex d.2.2.2.2.1 ++
             wordHex d.2.2.2.2.2.1 ++ wordHex d.2.2.2.2.2.2.1 ++
             wordHex d.2.2.2.2.2.2.2)

/-- `get_password_hash(password)` (`app/auth.py`):
`hashlib.sha256(password.encode()).hexdigest()`.  A password is embedded as
its UTF-8 byte sequence (`str.encode()` is injective on strings), so two
passwords are distinct exactly when their byte sequences are. -/
def get_password_hash (password : List Nat) : String :=
  digestHex (sha256Digest password)

/-- `verify_password(plain, hashed)` (`app/auth.py`): recompute the hash of
the plain password and compare for equality. -/
def verify_password (plain_password : List Nat) (hashed_password : String) :
    Bool :=
  get_password_hash plain_password == hashed_password

-- ---------------------------------------------------------------------------
-- Token service (`app/auth.py`) and identity resolution (`app/main.py`)
-- ---------------------------------------------------------------------------

/-- The claim set a decoded token yields: the payload fields the handlers
read — `sub` (may be absent) and `role`. -/
structure Claims where
  sub : Option String
  role : String
deriving DecidableEq, Repr

/-- A signed token, as the data `jwt.encode` commits to: the payload claims,
the absolute expiry timestamp (seconds), and the signing key.  The encoded
string is in bijection with this data for a fixed algorithm, and the
handlers only ever pass tokens to `jwt.decode`, so the token is embedded as
the data itself. -/
structure Jwt where
  sub : Option String
  role : String
  exp : Nat
  key : String
deriving DecidableEq, Repr

/-- The fixed TTL of `create_access_token`: `timedelta(minutes=1440)`, i.e.
24 hours, in seconds. -/
def defaultTTL : Nat := 1440 * 60

/-- `create_access_token(data, expires_delta)` (`app/auth.py`): copy the
claims and add `exp = now + (expires_delta or 1440 minutes)`, then sign with
the process-wide secret.  `now` is the issuing time in seconds. -/
def create_access_token (data : Claims) (expires_delta : Option Nat)
    (now : Nat) (key : String) : Jwt :=
  {sub := data.sub, role := data.role,
   exp := now + expires_delta.getD defaultTTL, key := key}

/-- Modelled from the spec: the expiry and signature checks of
`jwt.decode(token, SECRET_KEY, algorithms=[ALGORITHM])` run inside the
external `jose` library, not in this repository; §4.2 specifies `validate`
to fail exactly when signature verification fails OR current time ≥ embedded
expiry.  On success the payload claims are returned. -/
def jwtDecode (t : Jwt) (key : String) (now : Nat) : Option Claims :=
  if t.key == key && now < t.exp then some ⟨t.sub, t.role⟩ else none

/-- Dependency `get_current_user` (`app/main.py`): decode the bearer token
(any `JWTError` → 401 "Token expired"), require a `sub` claim (else 401
"Invalid token"), then load the `User` whose email equals the subject (none
→ 401 "User not found"). -/
def get_current_user (token : Jwt) (key : String) (now : Nat) (s : State) :
    Except Err User :=
  match jwtDecode token key now with
  | none => .error ⟨401, ("Token expired")⟩
  | some payload =>
      match payload.sub with
      | none => .error ⟨401, ("Invalid token")⟩
      | some email =>
          match s.users.find? (fun u => u.email == email) with
          | none => .error ⟨401, ("User not found")⟩
          | some u => .ok u

/-- Dependency `get_admin_user` (`app/main.py`): pass the resolved user
through iff its role is exactly `"ROLE_ADMIN"`, else 403. -/
def get_admin_user (current_user : User) : Except Err User :=
  if current_user.role == ("ROLE_ADMIN") then .ok current_user
  else .error ⟨403, ("Admin access required")⟩

-- ---------------------------------------------------------------------------
-- Auth / user endpoints (`app/main.py`, section 2)
-- ---------------------------------------------------------------------------

/-- Fresh autoincrement id for an inserted user row. -/
def nextUserId (s : State) : Nat :=
  (s.users.map User.id).foldr max 0 + 1

/-- Handler `POST /auth/google` (`google_login`): the supplied `id_token` is
never read.  The handler looks up the fixed account
`google_user@example.com`, creates it (`role="ROLE_USER"`,
`hashed_password="social_user"`) when absent, and returns a bearer token
`{sub: that email, role: user.role}`. -/
def google_login (id_token : String) (s : State) (now : Nat) (key : String) :
    State × Jwt :=
  match s.users.find? (fun u => u.email == ("google_user@example.com")) with
  | some user =>
      (s, create_access_token ⟨some ("google_user@example.com"), user.role⟩
            none now key)
  | none =>
      ({s with users := s.users ++
          [{id := nextUserId s, email := ("google_user@example.com"),
            hashed_password := ("social_user"), role := ("ROLE_USER")}]},
       create_access_token ⟨some ("google_user@example.com"), ("ROLE_USER")⟩
         none now key)

/-- Handler `PUT /users/me` (`update_my_role`): set the acting user's `role`
column to the caller-supplied query string — any string at all — and
commit. -/
def update_my_role (u : User) (role : String) (s : State) : State :=
  {s with users := s.users.map (fun v =>
      if v.id == u.id then {v with role := role} else v)}

-- ---------------------------------------------------------------------------
-- Movie endpoints (`app/main.py`, section 3)
-- ---------------------------------------------------------------------------

/-- One movie record of the external catalog response
(`fetch_popular_movies`): the fields `sync_movies` reads. -/
structure TmdbMovie where
  id : Nat
  title : String
  overview : String
  vote_average : Rat
deriving DecidableEq, Repr

/-- Inner step of `sync_movies`: for one fetched record, insert a `Movie`
row unless one with that id already exists (the existence select autoflushes
pending inserts, so earlier insertions of this very run are visible). -/
def syncOne (s : State) (m : TmdbMovie) : State :=
  if (s.movies.find? (fun x => x.id == m.id)).isSome then s
  else {s with movies := s.movies ++
         [{id := m.id, title := m.title, overview := some m.overview,
           rating := m.vote_average}]}

/-- Handler `POST /movies/sync` (`sync_movies`): fetch pages 1..10 from the
external catalog (supplied here as `pages`, the external collaborator's
responses), insert each unseen movie, commit, answer `{"status": "synced"}`.
The route declares no authentication dependency whatsoever: there is no
acting user in its signature. -/
def sync_movies (pages : List (List TmdbMovie)) (s : State) : State × String :=
  (pages.flatten.foldl syncOne s, ("synced"))

/-- Handler `POST /movies` (`create_movie`): behind `get_admin_user`; insert
a movie titled `title` whose id is the current unix timestamp. -/
def create_movie (actor : User) (title : String) (now : Nat) (s : State) :
    Except Err (State × Movie) :=
  match get_admin_user actor with
  | .error e => .error e
  | .ok _ =>
      .ok ({s with movies := s.movies ++
              [{id := now, title := title, overview := none, rating := 0}]},
           {id := now, title := title, overview := none, rating := 0})

/-- Handler `PUT /movies/{movie_id}` (`update_movie`): behind
`get_admin_user`; `update(Movie).where(id = movie_id).values(title)`. -/
def update_movie (actor : User) (movie_id : Nat) (title : String) (s : State) :
    Except Err (State × String) :=
  match get_admin_user actor with
  | .error e => .error e
  | .ok _ =>
      .ok ({s with movies := s.movies.map (fun m =>
              if m.id == movie_id then {m with title := title} else m)},
           ("updated"))

/-- Row effect of `DELETE /movies/{movie_id}`:
`delete(Movie).where(id = movie_id)`. -/
def eraseMovie (movie_id : Nat) (s : State) : State :=
  {s with movies := s.movies.filter (fun m => !(m.id == movie_id))}

/-- Handler `DELETE /movies/{movie_id}` (`delete_movie`): behind
`get_admin_user`; id-scoped delete, then `{"msg": "deleted"}`. -/
def delete_movie (actor : User) (movie_id : Nat) (s : State) :
    Except Err (State × String) :=
  match get_admin_user actor with
  | .error e => .error e
  | .ok _ => .ok (eraseMovie movie_id s, ("deleted"))

-- ---------------------------------------------------------------------------
-- Concrete fixtures
-- ---------------------------------------------------------------------------

/-- A regular registered user. -/
def alice : User :=
  {id := 1, email := ("alice@example.com"), hashed_password := ("h1"),
   role := ("ROLE_USER")}

/-- A second regular user, distinct from `alice`. -/
def bob : User :=
  {id := 2, email := ("bob@example.com"), hashed_password := ("h2"),
   role := ("ROLE_USER")}

/-- An administrator. -/
def adminUser : User :=
  {id := 3, email := ("admin@example.com"), hashed_password := ("h3"),
   role := ("ROLE_ADMIN")}

/-- A catalog movie. -/
def movie7 : Movie := {id := 7, title := ("Heat"), overview := none, rating := 0}

/-- A review written by `alice` on `movie7`. -/
def review1 : Review :=
  {id := 1, content := ("great"), score := 5, user_id := 1, movie_id := 7}

/-- A personal list owned by `alice`, initially empty. -/
def list1 : PersonalList :=
  {id := 1, title := ("faves"), description := none, user_id := 1, movies := []}

/-- A populated store: three users, one movie, one review and one list, the
latter two owned by `alice`. -/
def baseState : State :=
  {users := [alice, bob, adminUser], movies := [movie7],
   reviews := [review1], lists := [list1]}

-- ---------------------------------------------------------------------------
-- C1: ownership-scoped review update/delete never touches a foreign review
-- ---------------------------------------------------------------------------

/-- C1: for every acting user `u` and review `r` owned by a different user,
the ownership-scoped `update_review` and `delete_review` invoked by `u` on
`r`'s id leave `r` unchanged: the record is still present verbatim in the
committed state (on the update's 403 branch nothing commits at all). -/
theorem foreign_review_untouched
    (u : User) (r : Review) (content : String) (s : State)
    (hmem : r ∈ s.reviews) (hown : r.user_id ≠ u.id) :
    r ∈ (resultState (update_review u r.id content s) s).reviews ∧
    r ∈ (resultState (delete_review u r.id s) s).reviews := by
  constructor
  · cases hfind : s.reviews.find? (fun x => x.id == r.id && x.user_id == u.id)
      with
    | none => simpa [update_review, hfind, resultState] using hmem
    | some r0 =>
        simp only [update_review, hfind, resultState]
        refine List.mem_map.mpr ⟨r, hmem, ?_⟩
        simp [hown]
  · simp only [delete_review, resultState, eraseReview]
    exact List.mem_filter.mpr ⟨hmem, by simp [hown]⟩

/-- Witness for C1: `bob` attacks `alice`'s review by its valid id; the
review survives both the update and the delete verbatim. -/
theorem foreign_review_untouched_witness :
    review1 ∈ baseState.reviews ∧ review1.user_id ≠ bob.id ∧
    review1 ∈
      (resultState (update_review bob review1.id ("mine now") baseState)
        baseState).reviews ∧
    review1 ∈
      (resultState (delete_review bob review1.id baseState) baseState).reviews := by
  have h := foreign_review_untouched bob review1 ("mine now") baseState
    (by decide) (by decide)
  exact ⟨by decide, by decide, h.1, h.2⟩

-- ---------------------------------------------------------------------------
-- C3: list mutations and ownership
-- ---------------------------------------------------------------------------

/-- C3 counterexample: `add_to_list` does not follow the ownership pattern.
`bob` (id 2) adds a movie to `alice`'s list (owner id 1) by its id: the
call succeeds and the list is mutated — the original record is gone from
the store and the movie now sits on `alice`'s list. -/
theorem foreign_list_mutated_counterexample :
    list1 ∈ baseState.lists ∧ list1.user_id ≠ bob.id ∧
    {list1 with movies := [7]} ∈
      (resultState (add_to_list bob list1.id movie7.id baseState)
        baseState).lists ∧
    list1 ∉
      (resultState (add_to_list bob list1.id movie7.id baseState)
        baseState).lists := by decide

/-- C3 (amended): the `update_list` and `delete_list` operations do follow
the same ownership-constrained-query pattern as Review — a list owned by a
different user is left unchanged, present verbatim in the committed
state. -/
theorem foreign_list_untouched_by_update_delete
    (u : User) (l : PersonalList) (title : String) (s : State)
    (hmem : l ∈ s.lists) (hown : l.user_id ≠ u.id) :
    l ∈ (resultState (update_list u l.id title s) s).lists ∧
    l ∈ (resultState (delete_list u l.id s) s).lists := by
  constructor
  · simp only [update_list, resultState]
    refine List.mem_map.mpr ⟨l, hmem, ?_⟩
    simp [hown]
  · simp only [delete_list, resultState, eraseList]
    exact List.mem_filter.mpr ⟨hmem, by simp [hown]⟩

/-- Witness for the amended C3: `bob` runs the ownership-scoped update and
delete against `alice`'s list; it survives verbatim. -/
theorem foreign_list_untouched_witness :
    list1 ∈ baseState.lists ∧ list1.user_id ≠ bob.id ∧
    list1 ∈
      (resultState (update_list bob list1.id ("pwned") baseState)
        baseState).lists ∧
    list1 ∈ (resultState (delete_list bob list1.id baseState) baseState).lists := by
  have h := foreign_list_untouched_by_update_delete bob list1 ("pwned")
    baseState (by decide) (by decide)
  exact ⟨by decide, by decide, h.1, h.2⟩

-- ---------------------------------------------------------------------------
-- C5: behavior of review mutations on missing-or-foreign ids
-- ---------------------------------------------------------------------------

/-- C5 counterexample: the review update on a foreign review id is not
success-shaped — it raises 403 "Not your review".  (`bob` updates `alice`'s
review by its valid id.) -/
theorem review_update_errors_counterexample :
    review1 ∈ baseState.reviews ∧ review1.user_id ≠ bob.id ∧
    update_review bob review1.id ("hacked") baseState =
      .error ⟨403, ("Not your review")⟩ :=
  ⟨by decide, by decide, rfl⟩

/-- C5 (amended): for a review id that is missing or owned by a different
user — the hypothesis covers both cases by the same predicate, so the two
are indistinguishable to the caller and no separate authorization step
tells them apart — `update_review` fails with the same 403 error and
`delete_review` reports the success-shaped `"deleted"` while affecting zero
records. -/
theorem review_mutation_miss_uniform
    (u : User) (review_id : Nat) (content : String) (s : State)
    (hmiss : ∀ r ∈ s.reviews, ¬(r.id = review_id ∧ r.user_id = u.id)) :
    update_review u review_id content s = .error ⟨403, ("Not your review")⟩ ∧
    delete_review u review_id s = .ok (s, ("deleted")) := by
  have hfind : s.reviews.find? (fun r => r.id == review_id && r.user_id == u.id)
      = none := by
    rw [List.find?_eq_none]
    intro r hr
    have h := hmiss r hr
    by_cases h1 : r.id = review_id
    · by_cases h2 : r.user_id = u.id
      · exact absurd ⟨h1, h2⟩ h
      · simp [h1, h2]
    · simp [h1]
  constructor
  · simp [update_review, hfind]
  · have hkeep : s.reviews.filter
        (fun r => !(r.id == review_id && r.user_id == u.id)) = s.reviews := by
      rw [List.filter_eq_self]
      intro r hr
      have h := hmiss r hr
      by_cases h1 : r.id = review_id
      · by_cases h2 : r.user_id = u.id
        · exact absurd ⟨h1, h2⟩ h
        · simp [h1, h2]
      · simp [h1]
    unfold delete_review eraseReview
    rw [hkeep]

/-- Witness for the amended C5, applied twice: once on a nonexistent review
id (99) and once on `alice`'s review attacked by `bob` — identical
outcomes. -/
theorem review_mutation_miss_uniform_witness :
    (update_review bob 99 ("x") baseState =
        .error ⟨403, ("Not your review")⟩ ∧
      delete_review bob 99 baseState = .ok (baseState, ("deleted"))) ∧
    (update_review bob review1.id ("x") baseState =
        .error ⟨403, ("Not your review")⟩ ∧
      delete_review bob review1.id baseState = .ok (baseState, ("deleted"))) :=
  ⟨review_mutation_miss_uniform bob 99 ("x") baseState (by decide),
   review_mutation_miss_uniform bob review1.id ("x") baseState (by decide)⟩

-- ---------------------------------------------------------------------------
-- C9: deletes never error and are idempotent
-- ---------------------------------------------------------------------------

/-- C9: every delete endpoint answers the success-shaped `"deleted"`
unconditionally (in particular on a non-existent or already-deleted id),
and the row effect of each delete is idempotent: applying the same delete a
second time affects zero records and leaves the store exactly as after the
first. -/
theorem delete_idempotent_and_total
    (u a : User) (review_id list_id movie_id : Nat) (s : State)
    (hadmin : a.role = ("ROLE_ADMIN")) :
    delete_review u review_id s = .ok (eraseReview u review_id s, ("deleted")) ∧
    eraseReview u review_id (eraseReview u review_id s) =
      eraseReview u review_id s ∧
    delete_list u list_id s = .ok (eraseList u list_id s, ("deleted")) ∧
    eraseList u list_id (eraseList u list_id s) = eraseList u list_id s ∧
    delete_movie a movie_id s = .ok (eraseMovie movie_id s, ("deleted")) ∧
    eraseMovie movie_id (eraseMovie movie_id s) = eraseMovie movie_id s := by
  refine ⟨rfl, ?_, rfl, ?_, ?_, ?_⟩
  · simp [eraseReview, List.filter_filter]
  · simp [eraseList, List.filter_filter]
  · simp [delete_movie, get_admin_user, hadmin]
  · simp [eraseMovie, List.filter_filter]

/-- Witness for C9: concrete double deletes by `bob` (reviews, lists) and
the admin (movies) on id 1 over the populated store. -/
theorem delete_idempotent_and_total_witness :
    delete_review bob 1 baseState = .ok (eraseReview bob 1 baseState, ("deleted")) ∧
    eraseReview bob 1 (eraseReview bob 1 baseState) = eraseReview bob 1 baseState ∧
    delete_list bob 1 baseState = .ok (eraseList bob 1 baseState, ("deleted")) ∧
    eraseList bob 1 (eraseList bob 1 baseState) = eraseList bob 1 baseState ∧
    delete_movie adminUser 1 baseState = .ok (eraseMovie 1 baseState, ("deleted")) ∧
    eraseMovie 1 (eraseMovie 1 baseState) = eraseMovie 1 baseState :=
  delete_idempotent_and_total bob adminUser 1 1 1 baseState (by decide)

-- ---------------------------------------------------------------------------
-- C2: which movie mutations are admin-gated
-- ---------------------------------------------------------------------------

/-- C2 counterexample: the sync endpoint is a code path that mutates the
movie store without the admin check — `sync_movies` has no acting user in
its signature at all (the route declares no authentication dependency), yet
a request carrying one fetched record inserts a new `Movie` row and answers
success. -/
theorem sync_mutates_movies_without_admin_counterexample :
    (sync_movies
        [[{id := 99, title := ("New"), overview := ("o"), vote_average := 5}]]
        baseState).1.movies ≠ baseState.movies ∧
    (sync_movies
        [[{id := 99, title := ("New"), overview := ("o"), vote_average := 5}]]
        baseState).2 = ("synced") :=
  ⟨by decide, rfl⟩

/-- C2 (amended): the create, update and delete movie endpoints are behind
`get_admin_user`: for any actor whose role is not `ROLE_ADMIN` each fails
with 403 Forbidden and commits nothing, leaving the store unchanged. -/
theorem movie_crud_requires_admin
    (actor : User) (title : String) (movie_id now : Nat) (s : State)
    (h : actor.role ≠ ("ROLE_ADMIN")) :
    create_movie actor title now s = .error ⟨403, ("Admin access required")⟩ ∧
    update_movie actor movie_id title s =
      .error ⟨403, ("Admin access required")⟩ ∧
    delete_movie actor movie_id s = .error ⟨403, ("Admin access required")⟩ ∧
    resultState (create_movie actor title now s) s = s ∧
    resultState (update_movie actor movie_id title s) s = s ∧
    resultState (delete_movie actor movie_id s) s = s := by
  have hg : get_admin_user actor = .error ⟨403, ("Admin access required")⟩ := by
    simp [get_admin_user, h]
  refine ⟨?_, ?_, ?_, ?_, ?_, ?_⟩ <;>
    simp [create_movie, update_movie, delete_movie, resultState, hg]

/-- Witness for the amended C2: the non-admin `bob` is rejected by all
three movie CRUD endpoints and the store stays intact. -/
theorem movie_crud_requires_admin_witness :
    create_movie bob ("X") 100 baseState =
      .error ⟨403, ("Admin access required")⟩ ∧
    update_movie bob 7 ("X") baseState =
      .error ⟨403, ("Admin access required")⟩ ∧
    delete_movie bob 7 baseState = .error ⟨403, ("Admin access required")⟩ ∧
    resultState (create_movie bob ("X") 100 baseState) baseState = baseState ∧
    resultState (update_movie bob 7 ("X") baseState) baseState = baseState ∧
    resultState (delete_movie bob 7 baseState) baseState = baseState :=
  movie_crud_requires_admin bob ("X") 7 100 baseState (by decide)

-- ---------------------------------------------------------------------------
-- C4: the two-valued role invariant
-- ---------------------------------------------------------------------------

/-- Role invariant claimed by the data model: every persisted user's role is
one of the two documented values (`app/models.py` annotates the column with
exactly `ROLE_USER, ROLE_ADMIN`). -/
def rolesValid (s : State) : Prop :=
  ∀ u ∈ s.users, u.role = ("ROLE_USER") ∨ u.role = ("ROLE_ADMIN")

/-- C4 (code bug): the self-service `PUT /users/me` persists any
caller-supplied string as the role.  Starting from a store satisfying the
two-value invariant, `alice` setting her role to `ROLE_SUPERUSER` commits a
state that violates it. -/
theorem role_invariant_broken_by_update_my_role :
    rolesValid baseState ∧
    ¬ rolesValid (update_my_role alice ("ROLE_SUPERUSER") baseState) :=
  ⟨by unfold rolesValid; decide, by unfold rolesValid; decide⟩

-- ---------------------------------------------------------------------------
-- C6: token issue/validate round trip and expiry
-- ---------------------------------------------------------------------------

/-- C6: a token issued by `create_access_token` with subject `E` and role
`R` decodes, at any time before the fixed 24h TTL elapses, to exactly the
claims `{sub := E, role := R}`; from the embedded expiry onwards identity
resolution fails with 401 Unauthorized. -/
theorem token_roundtrip_and_expiry
    (E R key : String) (now t : Nat) (s : State) :
    (t < now + defaultTTL →
      jwtDecode (create_access_token ⟨some E, R⟩ none now key) key t =
        some ⟨some E, R⟩) ∧
    (now + defaultTTL ≤ t →
      get_current_user (create_access_token ⟨some E, R⟩ none now key) key t s =
        .error ⟨401, ("Token expired")⟩) := by
  constructor
  · intro ht
    simp [jwtDecode, create_access_token, ht]
  · intro ht
    have hd : jwtDecode (create_access_token ⟨some E, R⟩ none now key) key t
        = none := by
      simp [jwtDecode, create_access_token]
      omega
    simp [get_current_user, hd]

/-- Witness for C6: a token issued at time 0 decodes at time 0 to its
claims, and fails resolution with 401 at exactly the TTL boundary. -/
theorem token_roundtrip_and_expiry_witness :
    jwtDecode
        (create_access_token ⟨some ("e@x.com"), ("ROLE_USER")⟩ none 0 ("k"))
        ("k") 0 = some ⟨some ("e@x.com"), ("ROLE_USER")⟩ ∧
    get_current_user
        (create_access_token ⟨some ("e@x.com"), ("ROLE_USER")⟩ none 0 ("k"))
        ("k") defaultTTL baseState = .error ⟨401, ("Token expired")⟩ :=
  ⟨(token_roundtrip_and_expiry ("e@x.com") ("ROLE_USER") ("k") 0 0
      baseState).1 (by decide),
   (token_roundtrip_and_expiry ("e@x.com") ("ROLE_USER") ("k") 0 defaultTTL
      baseState).2 (by decide)⟩

-- ---------------------------------------------------------------------------
-- C8: identity resolution requires an existing user
-- ---------------------------------------------------------------------------

/-- C8: when a token's subject matches no persisted user (a deleted user
included), `get_current_user` fails with a 401 and never yields a user
record; conversely a successful resolution forces a valid signature, an
unexpired token, and a persisted user whose email is the token's
subject. -/
theorem token_resolution_requires_existing_user
    (token : Jwt) (key : String) (now : Nat) (s : State) (u : User) :
    ((∀ v ∈ s.users, some v.email ≠ token.sub) →
      ∃ d, get_current_user token key now s = .error ⟨401, d⟩) ∧
    (get_current_user token key now s = .ok u →
      token.key = key ∧ now < token.exp ∧ token.sub = some u.email ∧
      u ∈ s.users) := by
  have hpay : ∀ payload, jwtDecode token key now = some payload →
      payload = ⟨token.sub, token.role⟩ ∧ token.key = key ∧ now < token.exp := by
    intro payload hd
    unfold jwtDecode at hd
    by_cases hc : (token.key == key && decide (now < token.exp)) = true
    · rw [if_pos hc] at hd
      injection hd with h
      simp only [Bool.and_eq_true, beq_iff_eq, decide_eq_true_eq] at hc
      exact ⟨h.symm, hc.1, hc.2⟩
    · rw [if_neg hc] at hd
      exact Option.noConfusion hd
  constructor
  · intro hno
    cases hd : jwtDecode token key now with
    | none => exact ⟨("Token expired"), by simp [get_current_user, hd]⟩
    | some payload =>
        obtain ⟨hpl, hkey, hexp⟩ := hpay payload hd
        cases hsub : payload.sub with
        | none => exact ⟨("Invalid token"), by simp [get_current_user, hd, hsub]⟩
        | some email =>
            have htoksub : token.sub = some email := by
              rw [hpl] at hsub
              exact hsub
            have hfind : s.users.find? (fun v => v.email == email) = none := by
              rw [List.find?_eq_none]
              intro v hv
              have hne := hno v hv
              rw [htoksub] at hne
              simp only [ne_eq, Option.some.injEq] at hne
              simp [hne]
            exact ⟨("User not found"),
              by simp [get_current_user, hd, hsub, hfind]⟩
  · intro hok
    cases hd : jwtDecode token key now with
    | none =>
        simp only [get_current_user, hd] at hok
        exact Except.noConfusion hok
    | some payload =>
        obtain ⟨hpl, hkey, hexp⟩ := hpay payload hd
        cases hsub : payload.sub with
        | none =>
            simp only [get_current_user, hd, hsub] at hok
            exact Except.noConfusion hok
        | some email =>
            have htoksub : token.sub = some email := by
              rw [hpl] at hsub
              exact hsub
            cases hfind : s.users.find? (fun v => v.email == email) with
            | none =>
                simp only [get_current_user, hd, hsub, hfind] at hok
                exact Except.noConfusion hok
            | some w =>
                simp only [get_current_user, hd, hsub, hfind] at hok
                injection hok with hw
                have hmem : w ∈ s.users := List.mem_of_find?_eq_some hfind
                have hemail : w.email = email := by
                  have := List.find?_some hfind
                  simpa using this
                subst hw
                exact ⟨hkey, hexp, by rw [htoksub, hemail], hmem⟩

/-- Witness for C8, applied twice: a ghost-subject token over the populated
store resolves to a 401, and a successful resolution of `alice`'s token
certifies key, expiry and membership. -/
theorem token_resolution_witness :
    (∃ d, get_current_user
        {sub := some ("ghost@example.com"), role := ("ROLE_USER"), exp := 10,
         key := ("k")} ("k") 0 baseState = .error ⟨401, d⟩) ∧
    ({sub := some ("alice@example.com"), role := ("ROLE_USER"), exp := 10,
        key := ("k")} : Jwt).key = ("k") ∧ 0 < (10 : Nat) ∧
      (some ("alice@example.com") : Option String) = some alice.email ∧
      alice ∈ baseState.users :=
  ⟨(token_resolution_requires_existing_user
      {sub := some ("ghost@example.com"), role := ("ROLE_USER"), exp := 10,
       key := ("k")} ("k") 0 baseState alice).1 (by decide),
   (token_resolution_requires_existing_user
      {sub := some ("alice@example.com"), role := ("ROLE_USER"), exp := 10,
       key := ("k")} ("k") 0 baseState alice).2 rfl⟩

-- ---------------------------------------------------------------------------
-- C10: social login ignores the id_token
-- ---------------------------------------------------------------------------

/-- C10: the outcome of `google_login` is independent of the supplied
`id_token` — any two inputs produce identical committed state and identical
bearer token — and the issued token's subject is always the fixed account
`google_user@example.com`; no verification of the id_token happens on any
path. -/
theorem google_login_independent_of_id_token
    (t1 t2 : String) (s : State) (now : Nat) (key : String) :
    google_login t1 s now key = google_login t2 s now key ∧
    (google_login t1 s now key).2.sub = some ("google_user@example.com") := by
  refine ⟨rfl, ?_⟩
  unfold google_login
  cases s.users.find? (fun u => u.email == ("google_user@example.com")) with
  | none => rfl
  | some user => rfl

-- ---------------------------------------------------------------------------
-- C7: the password hashing contract
-- ---------------------------------------------------------------------------

/-- SHA-256 maps the infinitely many byte strings into the finite digest
space, so two distinct inputs share a digest.  No concrete pair is known —
the witnesses come from the pigeonhole principle, not from a computation. -/
theorem sha256_collision_exists :
    ∃ p q : List Nat, p ≠ q ∧ sha256Digest p = sha256Digest q := by
  obtain ⟨m, n, hmn, h⟩ :=
    Finite.exists_ne_map_eq_of_infinite
      (fun k : Nat => sha256Digest (List.replicate k 0))
  refine ⟨List.replicate m 0, List.replicate n 0, ?_, h⟩
  intro hc
  exact hmn (by simpa using congrArg List.length hc)

/-- C7 counterexample: it is not the case that every pair of distinct
passwords fails verification against each other's hash — the digest space
is finite while passwords are unbounded, so some distinct pair collides and
`verify_password` accepts the wrong password. -/
theorem password_verify_not_injective_counterexample :
    ¬ ∀ p q : List Nat, p ≠ q →
        verify_password q (get_password_hash p) = false := by
  intro hall
  obtain ⟨p, q, hpq, hcol⟩ := sha256_collision_exists
  have hh : get_password_hash q = get_password_hash p := by
    unfold get_password_hash
    rw [hcol]
  have htrue : verify_password q (get_password_hash p) = true := by
    unfold verify_password
    rw [hh]
    simp
  rw [hall p q hpq] at htrue
  exact Bool.false_ne_true htrue

/-- C7 (amended): `verify(p, hash(p))` is true for every password; `hash`
is deterministic (it is a function: equal inputs give equal digests); and
`verify(q, hash(p))` is false exactly for the pairs whose digests differ —
which, SHA-256 being unsalted and non-injective on the whole input space,
is weaker than "all distinct pairs". -/
theorem password_hash_contract :
    (∀ p : List Nat, verify_password p (get_password_hash p) = true) ∧
    (∀ p q : List Nat, p = q → get_password_hash p = get_password_hash q) ∧
    (∀ p q : List Nat, get_password_hash q ≠ get_password_hash p →
      verify_password q (get_password_hash p) = false) := by
  refine ⟨fun p => ?_, fun p q h => by rw [h], fun p q h => ?_⟩
  · simp [verify_password]
  · simp [verify_password, h]

set_option maxRecDepth 100000 in
/-- Witness for the amended C7: round trip on the byte string `[97]`
(Python's `"a"`), determinism on equal inputs, and rejection of a password
whose digest differs (`""` against the hash of `"a"`, both digests computed
by the embedded SHA-256). -/
theorem password_hash_contract_witness :
    verify_password [97] (get_password_hash [97]) = true ∧
    get_password_hash [97] = get_password_hash [97] ∧
    (get_password_hash [] ≠ get_password_hash [97] ∧
      verify_password [] (get_password_hash [97]) = false) :=
  ⟨password_hash_contract.1 [97],
   password_hash_contract.2.1 [97] [97] rfl,
   by decide,
   password_hash_contract.2.2 [97] [] (by decide)⟩

end MovieHub
